import Mathlib

/-!
# Verification of the tray-weather configuration / polling core

Shallow embedding of `src/main.ts` of the `ts-electron-tray-weather`
repository. The module-level mutable variables of `main.ts` (settings, CITY,
COUNTRY, LATITUDE, LONGITUDE, UPDATE_INTERVAL_SECONDS, WEATHER_URL, cityName,
countryName, apiErrors, lastUpdateTime, updateInterval timer, the settings
file) are gathered into an explicit `AppState`; the stateful functions
(`loadSettings`, `saveSettings`, `applySettings`, `validateSettings`,
`initializeLocation`, `fetchCoordinatesByCity`, `fetchWeatherData`,
`updateTrayTemperature`, `addApiError`) become state transformers that also
return the list of I/O effects (file writes, network calls) they perform.

Modelling conventions:
* JS numbers are rationals plus an explicit NaN (`JsNum`); JSON field values
  that may be absent, `null`, or present are `JOpt`.  An `undef` field of a
  candidate models an absent key (the renderer never sends a key whose value
  is literally `undefined`, so key-absence is the relevant reading of
  `Partial<Settings>` and of object spread).
* URLs built by string interpolation are abstracted to their payload
  (`Url.geocodeSearch city country`, `Url.forecast lat lon`): the TS code
  builds them injectively from exactly these data.
* Error messages produced by the code are kept verbatim; `extractErrorDetails`
  recovers an HTTP status from a message only when the message was built by
  the `HTTP error <status> <statusText>` template, which the structured
  `ErrMsg.httpError` constructor records (the regex `/HTTP error (\d+)/`
  matches exactly those messages).  Timestamps and stack-trace details of
  `ApiError` are omitted: list order models chronological order.
* The tray/menu/tooltip presentation layer is reduced to the observable
  weather display state: the text drawn on the tray icon (`iconText`) and
  `lastUpdateTime`.  `traysCreated` models the `!tray || !weatherTray` guard
  of `updateTrayTemperature`.
* Remote replies and the success of `fs.writeFileSync` are supplied by an
  environment `Env`.
-/

namespace TrayWeather

/-- A JavaScript number: NaN or a finite value (modelled as a rational). -/
inductive JsNum where
  | nan
  | fin (q : Rat)
deriving DecidableEq, Repr

/-- A JS object field: key absent, `null`, or holding a value. -/
inductive JOpt (α : Type) where
  | undef
  | null
  | val (a : α)
deriving DecidableEq, Repr

/-- `x ?? null` / feeding a field into an `Option`: `undef` and `null` both
become `none`. -/
def JOpt.toNull {α : Type} : JOpt α → Option α
  | .val a => some a
  | _ => none

/-- `x !== undefined && x !== null` as a Bool. -/
def JOpt.isVal {α : Type} : JOpt α → Bool
  | .val _ => true
  | _ => false

/-- JS truthiness of a `string | null | undefined` value: only a non-empty
string is truthy. -/
def strTruthy : JOpt String → Bool
  | .val s => s != ""
  | _ => false

/-- The string held by a `JOpt String` (only used under a truthiness guard). -/
def jstrVal : JOpt String → String
  | .val s => s
  | _ => ""

/-- JS `a || b` where `a` is an optional string (empty string is falsy). -/
def jsOrStr : Option String → String → String
  | some s, d => if s = "" then d else s
  | none, d => d

/-- JS `a || b` on optional numbers: `0` and `undefined` are both falsy. -/
def jsOrNat : Option Nat → Option Nat → Option Nat
  | some n, b => if n = 0 then b else some n
  | none, b => b

/-- Rational addition in a kernel-reducible form (equal to `Rat.add`). -/
def ratAdd (a b : Rat) : Rat := mkRat (a.num * b.den + b.num * a.den) (a.den * b.den)

/-- Rational multiplication in a kernel-reducible form (equal to `Rat.mul`). -/
def ratMul (a b : Rat) : Rat := mkRat (a.num * b.num) (a.den * b.den)

/-- JS multiplication on numbers, NaN-propagating. -/
def jsMul : JsNum → JsNum → JsNum
  | .fin a, .fin b => .fin (ratMul a b)
  | _, _ => .nan

/-- `Math.round`: round half toward positive infinity. -/
def jsRound (q : Rat) : Int := Rat.floor (ratAdd q (mkRat 1 2))

/-- `String.prototype.toLowerCase`, modelled character-wise (a computable
form of `String.toLower`). -/
def jsToLower (s : String) : String := ⟨s.data.map Char.toLower⟩

/-- `String.prototype.trim`: strip leading and trailing whitespace. -/
def jsTrim (s : String) : String :=
  ⟨((s.data.dropWhile Char.isWhitespace).reverse.dropWhile Char.isWhitespace).reverse⟩

/-- The `Settings` interface of `main.ts` (lines 7-13): all five fields
optional, coordinates additionally nullable (and at runtime the renderer also
sends `null` for city/country, so every field is a `JOpt`). -/
structure Settings where
  city : JOpt String
  country : JOpt String
  latitude : JOpt JsNum
  longitude : JOpt JsNum
  updateIntervalInSeconds : JOpt JsNum
deriving DecidableEq, Repr

/-- One field of the object spread `{...settings, ...newSettings}`: the new
field wins unless its key is absent. -/
def mergeField {α : Type} (old new : JOpt α) : JOpt α :=
  match new with
  | .undef => old
  | x => x

/-- `{...settings, ...newSettings}` (lines 252-255 and 362-365). -/
def mergeSettings (cur new : Settings) : Settings where
  city := mergeField cur.city new.city
  country := mergeField cur.country new.country
  latitude := mergeField cur.latitude new.latitude
  longitude := mergeField cur.longitude new.longitude
  updateIntervalInSeconds := mergeField cur.updateIntervalInSeconds new.updateIntervalInSeconds

/-- Request URLs, abstracted to their payload. -/
inductive Url where
  | geocodeSearch (name country : String)
  | forecast (latitude longitude : JsNum)
deriving DecidableEq, Repr

/-- An error message: either the `HTTP error <status> <statusText>` template
or plain text. -/
inductive ErrMsg where
  | httpError (status : Nat) (statusText : String)
  | text (msg : String)
deriving DecidableEq, Repr

/-- The HTTP status that `extractErrorDetails` (lines 134-137) recovers from
the message via the `/HTTP error (\d+)/i` pattern. -/
def msgStatusCode : ErrMsg → Option Nat
  | .httpError n _ => some n
  | .text _ => none

/-- An entry of the `apiErrors` history (interface `ApiError`, lines
100-108).  The timestamp and the stack-trace `details` field are omitted;
insertion order models chronological order. -/
structure ApiError where
  api : String
  error : ErrMsg
  url : Option Url
  statusCode : Option Nat
  errorCode : Option String
deriving DecidableEq, Repr

/-- `MAX_ERRORS` (line 111). -/
def MAX_ERRORS : Nat := 20

/-- The push-then-cap part of `addApiError` (lines 179-184): append, and when
the length exceeds `MAX_ERRORS`, `shift()` the oldest entry away. -/
def pushApiError (log : List ApiError) (e : ApiError) : List ApiError :=
  let log2 := log ++ [e]
  if MAX_ERRORS < log2.length then log2.tail else log2

/-- Entry construction of `addApiError` (lines 166-177): the explicit
`additionalInfo` status/code win over those extracted from the message, via
JS `||`. -/
def mkApiError (api : String) (error : ErrMsg) (url : Option Url)
    (addStatus : Option Nat) (addCode : Option String) : ApiError where
  api := api
  error := error
  url := url
  statusCode := jsOrNat addStatus (msgStatusCode error)
  errorCode := addCode

/-- The persisted `settings.json` storage: missing file, unparseable content,
or a stored record. -/
inductive Storage where
  | missing
  | corrupt
  | stored (s : Settings)
deriving DecidableEq, Repr

/-- A `setInterval` handle: a fresh id plus the period in milliseconds. -/
structure Timer where
  id : Nat
  intervalMs : JsNum
deriving DecidableEq, Repr

/-- The module-level mutable state of `main.ts` plus the settings file. -/
structure AppState where
  settings : Settings
  CITY : JOpt String
  COUNTRY : JOpt String
  LATITUDE : Option JsNum
  LONGITUDE : Option JsNum
  UPDATE_INTERVAL_SECONDS : JsNum
  WEATHER_URL : Option (JsNum × JsNum)
  cityName : String
  countryName : String
  apiErrors : List ApiError
  lastUpdateTime : Option Nat
  iconText : String
  updateTimer : Option Timer
  timerSeq : Nat
  traysCreated : Bool
  storage : Storage
deriving DecidableEq, Repr

/-- One candidate of a geocoding response (`data.results[i]`). -/
structure GeoResult where
  latitude : Rat
  longitude : Rat
  name : Option String
  country : Option String
deriving DecidableEq, Repr

/-- Outcome of the geocoding search call. -/
inductive GeoReply where
  | httpError (status : Nat) (statusText : String)
  | exception (message : String) (code : Option String)
  | ok (results : Option (List GeoResult))

/-- A JSON field value of the forecast body. -/
inductive JField where
  | absent
  | jnull
  | jnum (q : Rat)
  | jstr (s : String)
  | jbool (b : Bool)
deriving DecidableEq, Repr

/-- The `current_weather` object of a forecast response. -/
structure CurrentWeather where
  temperature : JField
  weathercode : JField
deriving DecidableEq, Repr

/-- Outcome of the forecast call; in `ok`, `none` models a body where
`data` or `data.current_weather` is absent/falsy. -/
inductive ForecastReply where
  | httpError (status : Nat) (statusText : String)
  | exception (message : String) (code : Option String)
  | ok (currentWeather : Option CurrentWeather)

/-- The environment supplying remote replies, disk-write success and the
clock. -/
structure Env where
  saveOk : Bool
  geocodeSearch : String → String → GeoReply
  forecast : ForecastReply
  now : Nat

/-- An observable I/O effect. -/
inductive Effect where
  | save (s : Settings)
  | geocode (name country : String)
  | forecastCall
deriving DecidableEq, Repr

/-- Default settings written on first start (lines 39-45) and returned on a
load error (lines 64-70). -/
def defaultSettings : Settings where
  city := .val "New York City"
  country := .val "United States"
  latitude := .null
  longitude := .null
  updateIntervalInSeconds := .val (.fin 60)

/-- `loadSettings` (lines 34-72) as a function of the storage state: a
missing file is created with the defaults; a corrupt file yields the defaults
without touching the file; a parsed record gets interval 60 filled in when
the field is `undefined` or `null` (in memory only). -/
def loadSettings : Storage → Settings × Storage
  | .missing => (defaultSettings, .stored defaultSettings)
  | .corrupt => (defaultSettings, .corrupt)
  | .stored s =>
      if s.updateIntervalInSeconds.isVal then (s, .stored s)
      else ({ s with updateIntervalInSeconds := .val (.fin 60) }, .stored s)

/-- `saveSettings` (lines 224-234): write the record to `settings.json`,
returning `false` on a write error (in which case the file is unchanged). -/
def saveSettings (newSettings : Settings) (s : AppState) (env : Env) :
    Bool × AppState × List Effect :=
  if env.saveOk then (true, { s with storage := .stored newSettings }, [.save newSettings])
  else (false, s, [.save newSettings])

/-- The exact-match predicate of `fetchCoordinatesByCity` (lines 1384-1386):
`loc.name && loc.name.toLowerCase() === cityLower`. -/
def nameMatches (city : String) (loc : GeoResult) : Bool :=
  match loc.name with
  | some n => (n != "") && (jsToLower n == jsToLower city)
  | none => false

/-- The result record of `fetchCoordinatesByCity`. -/
structure ResolvedByCity where
  latitude : Rat
  longitude : Rat
  cityName : String
  countryName : String
deriving DecidableEq, Repr

/-- `fetchCoordinatesByCity` (lines 1369-1407): geocode `city, country`; on a
non-ok status or an exception, record an `ApiError` and return `null`; on a
non-empty result list pick the first case-insensitive exact name match, or
else the first candidate; on an empty/absent result list return `null`
without recording an error. -/
def fetchCoordinatesByCity (city country : String) (s : AppState) (env : Env) :
    Option ResolvedByCity × AppState × List Effect :=
  let url : Url := .geocodeSearch city country
  match env.geocodeSearch city country with
  | .httpError st stx =>
      let e := mkApiError "Geocoding API (поиск координат)" (.httpError st stx) (some url)
        (some st) none
      (none, { s with apiErrors := pushApiError s.apiErrors e }, [.geocode city country])
  | .exception m c =>
      let e := mkApiError "Geocoding API (поиск координат)" (.text m) (some url) none c
      (none, { s with apiErrors := pushApiError s.apiErrors e }, [.geocode city country])
  | .ok resultsOpt =>
      match resultsOpt with
      | some (r :: rs) =>
          let chosen := (((r :: rs).find? (nameMatches city)).getD r)
          (some { latitude := chosen.latitude, longitude := chosen.longitude,
                  cityName := jsOrStr chosen.name city,
                  countryName := jsOrStr chosen.country country },
           s, [.geocode city country])
      | _ => (none, s, [.geocode city country])

/-- `initializeLocation` (lines 1445-1487).  Name path: coordinates missing
but city and country truthy; on geocoding success commit coordinates, display
names and the weather URL.  Coordinate path: both coordinates present; set
the weather URL only if it is still unset, touch nothing else (the reverse
lookup of display names is commented out in the source).  Otherwise record an
error and fail. -/
def initializeLocation (s : AppState) (env : Env) : Bool × AppState × List Effect :=
  if (s.LATITUDE.isNone || s.LONGITUDE.isNone) && strTruthy s.CITY && strTruthy s.COUNTRY then
    match fetchCoordinatesByCity (jstrVal s.CITY) (jstrVal s.COUNTRY) s env with
    | (some loc, s1, fx) =>
        (true,
         { s1 with LATITUDE := some (.fin loc.latitude),
                   LONGITUDE := some (.fin loc.longitude),
                   cityName := loc.cityName, countryName := loc.countryName,
                   WEATHER_URL := some (.fin loc.latitude, .fin loc.longitude) },
         fx)
    | (none, s1, fx) => (false, s1, fx)
  else
    match s.LATITUDE, s.LONGITUDE with
    | some la, some lo =>
        (true,
         { s with WEATHER_URL :=
            match s.WEATHER_URL with
            | none => some (la, lo)
            | some u => some u },
         [])
    | _, _ =>
        let e := mkApiError "Инициализация"
          (.text "Не указаны ни координаты, ни город и страна!") none none none
        (false, { s with apiErrors := pushApiError s.apiErrors e }, [])

/-- The successful payload of `fetchWeatherData`. -/
structure WeatherData where
  temperature : Rat
  weathercode : Rat
deriving DecidableEq, Repr

/-- The lenient weathercode parse of `fetchWeatherData` (lines 1511-1513):
a numeric `weathercode` is used, anything else defaults to `0`. -/
def weatherCodeOrZero : JField → Rat
  | .jnum w => w
  | _ => 0

/-- `fetchWeatherData` (lines 1494-1530): fail (recording an error) when the
URL is uninitialised, on a non-ok status, on an exception, or when the body
lacks a numeric `current_weather.temperature`; otherwise succeed with the
temperature and the leniently parsed weathercode. -/
def fetchWeatherData (s : AppState) (env : Env) :
    Option WeatherData × AppState × List Effect :=
  match s.WEATHER_URL with
  | none =>
      let e := mkApiError "Weather API" (.text "WEATHER_URL не инициализирован") none none none
      (none, { s with apiErrors := pushApiError s.apiErrors e }, [])
  | some (la, lo) =>
      let url : Url := .forecast la lo
      match env.forecast with
      | .httpError st stx =>
          let e := mkApiError "Weather API" (.httpError st stx) (some url) (some st) none
          (none, { s with apiErrors := pushApiError s.apiErrors e }, [.forecastCall])
      | .exception m c =>
          let e := mkApiError "Weather API" (.text m) (some url) none c
          (none, { s with apiErrors := pushApiError s.apiErrors e }, [.forecastCall])
      | .ok cwOpt =>
          match cwOpt with
          | some cw =>
              match cw.temperature with
              | .jnum t =>
                  (some { temperature := t, weathercode := weatherCodeOrZero cw.weathercode },
                   s, [.forecastCall])
              | _ =>
                  let e := mkApiError "Weather API"
                    (.text "Неверный формат ответа API: отсутствует температура")
                    (some url) none none
                  (none, { s with apiErrors := pushApiError s.apiErrors e }, [.forecastCall])
          | none =>
              let e := mkApiError "Weather API"
                (.text "Неверный формат ответа API: отсутствует температура")
                (some url) none none
              (none, { s with apiErrors := pushApiError s.apiErrors e }, [.forecastCall])

/-- `updateTrayTemperature` (lines 1779-2007), reduced to its observable
display state: bail out when the trays do not exist; on a successful fetch
set `lastUpdateTime` and draw the rounded temperature (`Math.round(temp)`
followed by a degree sign) on the icon; on a failed fetch draw `NA` and keep
`lastUpdateTime`. -/
def updateTrayTemperature (s : AppState) (env : Env) : AppState × List Effect :=
  if !s.traysCreated then (s, [])
  else
    match fetchWeatherData s env with
    | (some wd, s1, fx) =>
        ({ s1 with lastUpdateTime := some env.now,
                   iconText := toString (jsRound wd.temperature) ++ "°" }, fx)
    | (none, s1, fx) => ({ s1 with iconText := "NA" }, fx)

/-- Validation message for a non-numeric interval (line 326). -/
def msgIntervalNum : String := "Интервал обновления должен быть числом"

/-- Validation message for an interval below 1 second (line 328). -/
def msgIntervalMin : String := "Интервал обновления должен быть не менее 1 секунды"

/-- Validation message for a non-numeric latitude (line 335). -/
def msgLatNum : String := "Широта должна быть числом"

/-- Validation message for a latitude out of range (line 337). -/
def msgLatRange : String := "Широта должна быть в диапазоне от -90 до 90"

/-- Validation message for a non-numeric longitude (line 344). -/
def msgLonNum : String := "Долгота должна быть числом"

/-- Validation message for a longitude out of range (line 346). -/
def msgLonRange : String := "Долгота должна быть в диапазоне от -180 до 180"

/-- Validation message for an empty city string (line 352). -/
def msgCityEmpty : String := "Город не может быть пустой строкой (используйте null для очистки)"

/-- Validation message for an empty country string (line 357). -/
def msgCountryEmpty : String := "Страна не может быть пустой строкой (используйте null для очистки)"

/-- Validation message when the merged settings carry neither both
coordinates nor city and country (line 373). -/
def msgLocationRequired : String :=
  "Необходимо указать либо координаты (широта и долгота), либо город и страну"

/-- `hasCoordinates` of `validateSettings` (lines 367-368): both coordinate
fields are neither `null` nor `undefined`. -/
def hasCoordinatesB (m : Settings) : Bool := m.latitude.isVal && m.longitude.isVal

/-- `hasCityCountry` of `validateSettings` (lines 369-370): city and country
truthy and non-empty after trimming. -/
def hasCityCountryB (m : Settings) : Bool :=
  strTruthy m.city && strTruthy m.country &&
    (jsTrim (jstrVal m.city) != "") && (jsTrim (jstrVal m.country) != "")

/-- `validateSettings` (lines 320-380): each rule contributes its message
independently; the location rule is checked on the candidate merged over the
current settings.  Returns `(valid, errors)`. -/
def validateSettings (current candidate : Settings) : Bool × List String :=
  let e1 : List String :=
    match candidate.updateIntervalInSeconds with
    | .undef => []
    | .null => []
    | .val .nan => [msgIntervalNum]
    | .val (.fin q) => if q < 1 then [msgIntervalMin] else []
  let e2 : List String :=
    match candidate.latitude with
    | .undef => []
    | .null => []
    | .val .nan => [msgLatNum]
    | .val (.fin q) => if q < -90 ∨ 90 < q then [msgLatRange] else []
  let e3 : List String :=
    match candidate.longitude with
    | .undef => []
    | .null => []
    | .val .nan => [msgLonNum]
    | .val (.fin q) => if q < -180 ∨ 180 < q then [msgLonRange] else []
  let e4 : List String :=
    match candidate.city with
    | .val c => if jsTrim c = "" then [msgCityEmpty] else []
    | _ => []
  let e5 : List String :=
    match candidate.country with
    | .val c => if jsTrim c = "" then [msgCountryEmpty] else []
    | _ => []
  let merged := mergeSettings current candidate
  let e6 : List String :=
    if hasCoordinatesB merged || hasCityCountryB merged then [] else [msgLocationRequired]
  let errors := e1 ++ e2 ++ e3 ++ e4 ++ e5 ++ e6
  (errors.isEmpty, errors)

/-- The staging step of `applySettings` (lines 252-263): merge the candidate
over the current settings and overwrite the location / interval globals (the
weather URL and the display names are NOT touched here). -/
def applyStage (newSettings : Settings) (s : AppState) : AppState :=
  let merged := mergeSettings s.settings newSettings
  { s with CITY := merged.city, COUNTRY := merged.country,
           LATITUDE := merged.latitude.toNull,
           LONGITUDE := merged.longitude.toNull,
           UPDATE_INTERVAL_SECONDS := (merged.updateIntervalInSeconds.toNull).getD (.fin 60),
           settings := merged }

/-- The rollback blocks of `applySettings` (lines 268-276 and 284-292):
restore all snapshotted globals of `prev` inside `s` (the error history, the
timer and the file are not part of the snapshot). -/
def rollbackTo (prev s : AppState) : AppState :=
  { s with CITY := prev.CITY, COUNTRY := prev.COUNTRY,
           LATITUDE := prev.LATITUDE, LONGITUDE := prev.LONGITUDE,
           UPDATE_INTERVAL_SECONDS := prev.UPDATE_INTERVAL_SECONDS,
           WEATHER_URL := prev.WEATHER_URL,
           cityName := prev.cityName, countryName := prev.countryName,
           settings := prev.settings }

/-- `applySettings` (lines 239-315): snapshot, stage the merged settings,
persist them; on a write error roll the globals back; on a resolution
failure roll back and re-persist the snapshot; on success clear and recreate
the update timer at the (possibly unchanged) merged interval and trigger one
immediate temperature refresh. -/
def applySettings (newSettings : Settings) (s : AppState) (env : Env) :
    Bool × AppState × List Effect :=
  let prev := s
  let merged := mergeSettings s.settings newSettings
  let s1 := applyStage newSettings s
  match saveSettings merged s1 env with
  | (false, s2, fx1) => (false, rollbackTo prev s2, fx1)
  | (true, s2, fx1) =>
      match initializeLocation s2 env with
      | (false, s3, fx2) =>
          let s4 := rollbackTo prev s3
          match saveSettings prev.settings s4 env with
          | (_, s5, fx3) => (false, s5, fx1 ++ fx2 ++ fx3)
      | (true, s3, fx2) =>
          let ms := jsMul s3.UPDATE_INTERVAL_SECONDS (.fin 1000)
          let s4 := { s3 with updateTimer := some ⟨s3.timerSeq, ms⟩,
                              timerSeq := s3.timerSeq + 1 }
          match updateTrayTemperature s4 env with
          | (s5, fx4) => (true, s5, fx1 ++ fx2 ++ fx4)

/-- Reply sent back to the settings window by the `save-settings` handler. -/
inductive HandlerReply where
  | settingsSaved
  | settingsError (msgs : List String)
deriving DecidableEq, Repr

/-- The error message shown when `applySettings` fails (line 809). -/
def msgApplyFailed : String :=
  "Не удалось применить настройки. Проверьте правильность введённых данных (координаты или город и страна). Приложение продолжит работать с предыдущими настройками."

/-- The `save-settings` IPC handler (lines 776-821): validate first and
reply with the error list without any further action; otherwise run
`applySettings` and report its outcome. -/
def handleSaveSettings (candidate : Settings) (s : AppState) (env : Env) :
    HandlerReply × AppState × List Effect :=
  let v := validateSettings s.settings candidate
  if !v.1 then (.settingsError v.2, s, [])
  else
    match applySettings candidate s env with
    | (true, s1, fx) => (.settingsSaved, s1, fx)
    | (false, s1, fx) => (.settingsError [msgApplyFailed], s1, fx)

/-! ## Theorems -/

/-- Helper: pushing onto a log strictly below capacity just appends. -/
lemma pushApiError_of_lt (log : List ApiError) (e : ApiError)
    (h : log.length < MAX_ERRORS) : pushApiError log e = log ++ [e] := by
  unfold pushApiError
  simp only [List.length_append, List.length_singleton]
  rw [if_neg]
  simp only [MAX_ERRORS] at h ⊢
  omega

/-- Helper: pushing onto a log at capacity appends and drops the oldest. -/
lemma pushApiError_of_eq (log : List ApiError) (e : ApiError)
    (h : log.length = MAX_ERRORS) : pushApiError log e = log.tail ++ [e] := by
  unfold pushApiError
  simp only [List.length_append, List.length_singleton]
  rw [if_pos]
  · cases log with
    | nil => simp [MAX_ERRORS] at h
    | cons a as => simp
  · simp only [MAX_ERRORS] at h ⊢
    omega

/-- Helper: folding a history of failures into an empty log keeps exactly the
last `MAX_ERRORS` of them. -/
lemma foldl_pushApiError_drop (es : List ApiError) :
    es.foldl pushApiError [] = es.drop (es.length - MAX_ERRORS) := by
  have hM : MAX_ERRORS = 20 := rfl
  induction es using List.reverseRecOn with
  | nil => simp
  | append_singleton es e ih =>
      rw [List.foldl_append, List.foldl_cons, List.foldl_nil, ih]
      by_cases h : es.length < MAX_ERRORS
      · rw [Nat.sub_eq_zero_of_le (Nat.le_of_lt h), List.drop_zero,
            pushApiError_of_lt es e h,
            List.length_append, List.length_singleton,
            Nat.sub_eq_zero_of_le (by omega), List.drop_zero]
      · have hd : (es.drop (es.length - MAX_ERRORS)).length = MAX_ERRORS := by
          rw [List.length_drop]
          omega
        rw [pushApiError_of_eq _ e hd, List.tail_drop,
            List.length_append, List.length_singleton,
            List.drop_append_of_le_length
              (by rw [hM] at h ⊢; omega : es.length + 1 - MAX_ERRORS ≤ es.length)]
        congr 2
        omega

/-- C3: the error log never holds more than `MAX_ERRORS = 20` entries: a
record below capacity appends the entry, a record at capacity appends it and
evicts exactly the oldest entry, and after 25 sequential failures the log is
exactly the last 20 entries in insertion order. -/
theorem errorLog_capacity_fifo :
    (∀ (log : List ApiError) (e : ApiError), log.length ≤ MAX_ERRORS →
      (pushApiError log e).length ≤ MAX_ERRORS ∧
      (log.length < MAX_ERRORS → pushApiError log e = log ++ [e]) ∧
      (log.length = MAX_ERRORS → pushApiError log e = log.tail ++ [e])) ∧
    (∀ es : List ApiError, es.length = 25 → es.foldl pushApiError [] = es.drop 5) := by
  constructor
  · intro log e h
    refine ⟨?_, fun hlt => pushApiError_of_lt log e hlt,
            fun heq => pushApiError_of_eq log e heq⟩
    rcases Nat.lt_or_ge log.length MAX_ERRORS with hlt | hge
    · rw [pushApiError_of_lt log e hlt]
      simp only [List.length_append, List.length_singleton]
      omega
    · have heq : log.length = MAX_ERRORS := Nat.le_antisymm h hge
      rw [pushApiError_of_eq log e heq]
      have hM : MAX_ERRORS = 20 := rfl
      simp only [List.length_append, List.length_singleton, List.length_tail]
      rw [hM] at heq ⊢
      omega
  · intro es h25
    rw [foldl_pushApiError_drop, h25]
    rfl

/-- A sample error entry used in witnesses. -/
def sampleApiError : ApiError :=
  mkApiError "Weather API" (.httpError 500 "Internal Server Error")
    (some (.forecast (.fin 55) (.fin 37))) (some 500) none

/-- Witness for C3 at a concrete log and a concrete run of 25 failures. -/
theorem errorLog_capacity_fifo_witness :
    (pushApiError [] sampleApiError).length ≤ MAX_ERRORS ∧
    (List.replicate 25 sampleApiError).foldl pushApiError [] =
      (List.replicate 25 sampleApiError).drop 5 :=
  ⟨(errorLog_capacity_fifo.1 [] sampleApiError (by decide)).1,
   errorLog_capacity_fifo.2 (List.replicate 25 sampleApiError) (by simp)⟩

/-- C2 counterexample: on corrupt storage `loadSettings` returns the default
settings but does NOT write them back: the storage still holds the corrupt
content, not the default record. -/
theorem loadSettings_corrupt_counterexample :
    loadSettings Storage.corrupt = (defaultSettings, Storage.corrupt) ∧
    Storage.corrupt ≠ Storage.stored defaultSettings :=
  ⟨rfl, by decide⟩

/-- C2 amended: `loadSettings` is total and returns the default settings
(New York City / United States / interval 60) on missing or corrupt storage,
but it writes the default record back only when the storage is missing; a
corrupt storage is left untouched. -/
theorem loadSettings_defaults :
    loadSettings Storage.missing =
      ({ city := .val "New York City", country := .val "United States",
         latitude := .null, longitude := .null,
         updateIntervalInSeconds := .val (.fin 60) }, Storage.stored defaultSettings) ∧
    loadSettings Storage.corrupt = (defaultSettings, Storage.corrupt) := by
  exact ⟨rfl, rfl⟩

/-- A concrete application state used in witnesses: the state right after a
first start with the default settings loaded and both trays created. -/
def baseState : AppState where
  settings := defaultSettings
  CITY := .val "New York City"
  COUNTRY := .val "United States"
  LATITUDE := none
  LONGITUDE := none
  UPDATE_INTERVAL_SECONDS := .fin 60
  WEATHER_URL := none
  cityName := ""
  countryName := ""
  apiErrors := []
  lastUpdateTime := none
  iconText := "--"
  updateTimer := none
  timerSeq := 0
  traysCreated := true
  storage := .stored defaultSettings

/-- C6: name-based resolution picks, among a non-empty candidate list, the
first candidate whose returned name equals the requested place
case-insensitively, or the provider's first candidate when none matches
exactly, and fails on an empty candidate list. -/
theorem fetchCoordinatesByCity_disambiguation
    (city country : String) (s : AppState) (env : Env) (results : List GeoResult)
    (henv : env.geocodeSearch city country = .ok (some results)) :
    (results = [] → (fetchCoordinatesByCity city country s env).1 = none) ∧
    (∀ r rs, results = r :: rs →
      (fetchCoordinatesByCity city country s env).1 =
        some { latitude := ((results.find? (nameMatches city)).getD r).latitude,
               longitude := ((results.find? (nameMatches city)).getD r).longitude,
               cityName := jsOrStr ((results.find? (nameMatches city)).getD r).name city,
               countryName :=
                 jsOrStr ((results.find? (nameMatches city)).getD r).country country } ∧
      (∀ m, results.find? (nameMatches city) = some m →
        ∃ nm, m.name = some nm ∧ jsToLower nm = jsToLower city) ∧
      (results.find? (nameMatches city) = none →
        (results.find? (nameMatches city)).getD r = r)) := by
  constructor
  · rintro rfl
    simp [fetchCoordinatesByCity, henv]
  · rintro r rs rfl
    refine ⟨by simp [fetchCoordinatesByCity, henv], ?_, ?_⟩
    · intro m hm
      have hp := List.find?_some hm
      cases hname : m.name with
      | none => simp [nameMatches, hname] at hp
      | some n =>
          simp only [nameMatches, hname, Bool.and_eq_true, bne_iff_ne, beq_iff_eq] at hp
          exact ⟨n, by simp [hname], hp.2⟩
    · intro hnone
      rw [hnone]
      rfl

/-- Geocoding candidate whose name is not an exact match. -/
def geoCandidateA : GeoResult where
  latitude := 1
  longitude := 2
  name := some "Minsk Region"
  country := some "Belarus"

/-- Geocoding candidate matching `Minsk` case-insensitively. -/
def geoCandidateB : GeoResult where
  latitude := 3
  longitude := 4
  name := some "minsk"
  country := some "Belarus"

/-- Environment whose geocoding search returns the two candidates above. -/
def geoEnv : Env where
  saveOk := true
  geocodeSearch := fun _ _ => .ok (some [geoCandidateA, geoCandidateB])
  forecast := .ok none
  now := 0

/-- Witness for C6: with candidates `Minsk Region` then `minsk`, the query
for `Minsk` picks the case-insensitive exact match `minsk`. -/
theorem fetchCoordinatesByCity_disambiguation_witness :
    (fetchCoordinatesByCity "Minsk" "Belarus" baseState geoEnv).1 =
      some { latitude := 3, longitude := 4, cityName := "minsk",
             countryName := "Belarus" } := by
  have h := (fetchCoordinatesByCity_disambiguation "Minsk" "Belarus" baseState geoEnv
    [geoCandidateA, geoCandidateB] rfl).2 geoCandidateA [geoCandidateB] rfl
  rw [h.1]
  decide

/-- C7: with an initialised weather URL and a received response body, the
fetch succeeds exactly when the body carries a numeric
`current_weather.temperature`; on success a missing or non-numeric
`weathercode` defaults to 0; on a missing or non-numeric temperature the
fetch fails and records a malformed-response entry in the error log. -/
theorem fetchWeatherData_numeric_temperature
    (s : AppState) (env : Env) (la lo : JsNum) (cwOpt : Option CurrentWeather)
    (hurl : s.WEATHER_URL = some (la, lo))
    (henv : env.forecast = .ok cwOpt) :
    ((fetchWeatherData s env).1.isSome = true ↔
      ∃ cw t, cwOpt = some cw ∧ cw.temperature = .jnum t) ∧
    (∀ cw t, cwOpt = some cw → cw.temperature = .jnum t →
      (fetchWeatherData s env).1 =
        some { temperature := t, weathercode := weatherCodeOrZero cw.weathercode }) ∧
    ((∀ cw t, cwOpt = some cw → cw.temperature ≠ .jnum t) →
      (fetchWeatherData s env).1 = none ∧
      ((fetchWeatherData s env).2.1).apiErrors = pushApiError s.apiErrors
        (mkApiError "Weather API"
          (.text "Неверный формат ответа API: отсутствует температура")
          (some (.forecast la lo)) none none)) := by
  rcases cwOpt with _ | cw
  · refine ⟨?_, ?_, ?_⟩ <;> simp [fetchWeatherData, hurl, henv]
  · cases htemp : cw.temperature with
    | jnum t =>
        refine ⟨?_, ?_, ?_⟩
        · simp only [fetchWeatherData, hurl, henv, htemp]
          simp [htemp]
        · intro cw2 t2 hcw ht2
          cases hcw
          have ht : JField.jnum t = .jnum t2 := htemp.symm.trans ht2
          cases ht
          simp [fetchWeatherData, hurl, henv, htemp]
        · intro hno
          exact absurd htemp (hno cw t rfl)
    | absent =>
        refine ⟨?_, ?_, ?_⟩
        · simp [fetchWeatherData, hurl, henv, htemp]
        · intro cw2 t2 hcw ht2
          cases hcw
          rw [htemp] at ht2
          cases ht2
        · intro _
          constructor <;> simp [fetchWeatherData, hurl, henv, htemp]
    | jnull =>
        refine ⟨?_, ?_, ?_⟩
        · simp [fetchWeatherData, hurl, henv, htemp]
        · intro cw2 t2 hcw ht2
          cases hcw
          rw [htemp] at ht2
          cases ht2
        · intro _
          constructor <;> simp [fetchWeatherData, hurl, henv, htemp]
    | jstr str =>
        refine ⟨?_, ?_, ?_⟩
        · simp [fetchWeatherData, hurl, henv, htemp]
        · intro cw2 t2 hcw ht2
          cases hcw
          rw [htemp] at ht2
          cases ht2
        · intro _
          constructor <;> simp [fetchWeatherData, hurl, henv, htemp]
    | jbool b =>
        refine ⟨?_, ?_, ?_⟩
        · simp [fetchWeatherData, hurl, henv, htemp]
        · intro cw2 t2 hcw ht2
          cases hcw
          rw [htemp] at ht2
          cases ht2
        · intro _
          constructor <;> simp [fetchWeatherData, hurl, henv, htemp]

/-- A state with an initialised weather URL for coordinates (55, 37). -/
def weatherState : AppState :=
  { baseState with LATITUDE := some (.fin 55), LONGITUDE := some (.fin 37),
                   WEATHER_URL := some (.fin 55, .fin 37) }

/-- Environment whose forecast reply has a numeric temperature 5 and a
non-numeric (string) weathercode. -/
def weatherEnvOk : Env where
  saveOk := true
  geocodeSearch := fun _ _ => .ok none
  forecast := .ok (some { temperature := .jnum 5, weathercode := .jstr "x" })
  now := 100

/-- Witness for C7: numeric temperature 5 with a non-numeric weathercode
succeeds with code 0. -/
theorem fetchWeatherData_numeric_temperature_witness :
    (fetchWeatherData weatherState weatherEnvOk).1 =
      some { temperature := 5, weathercode := 0 } :=
  (fetchWeatherData_numeric_temperature weatherState weatherEnvOk (.fin 55) (.fin 37)
    (some { temperature := .jnum 5, weathercode := .jstr "x" }) rfl rfl).2.1
    { temperature := .jnum 5, weathercode := .jstr "x" } 5 rfl rfl

/-- Helper: with both coordinates present, `initializeLocation` takes the
coordinate branch: it succeeds with no effect, reads nothing but the
coordinates, and only fills in the weather URL when it was still unset. -/
lemma initializeLocation_coords (s : AppState) (env : Env) (la lo : JsNum)
    (hla : s.LATITUDE = some la) (hlo : s.LONGITUDE = some lo) :
    initializeLocation s env =
      (true, { s with WEATHER_URL := some (s.WEATHER_URL.getD (la, lo)) }, []) := by
  cases hw : s.WEATHER_URL with
  | none => simp [initializeLocation, hla, hlo, hw]
  | some u => simp [initializeLocation, hla, hlo, hw]

/-- A benign environment: disk writes succeed, geocoding finds no candidate,
the forecast body is empty. -/
def baseEnv : Env where
  saveOk := true
  geocodeSearch := fun _ _ => .ok (some [])
  forecast := .ok none
  now := 0

/-- A state whose location comes from coordinates while the display names
still hold the values of an earlier name-based resolution. -/
def coordDisplayState : AppState :=
  { baseState with
      settings := { city := .null, country := .null, latitude := .val (.fin 55),
                    longitude := .val (.fin 37),
                    updateIntervalInSeconds := .val (.fin 60) },
      CITY := .null, COUNTRY := .null,
      LATITUDE := some (.fin 55), LONGITUDE := some (.fin 37),
      cityName := "Москва", countryName := "Россия" }

/-- C8 counterexample: coordinate-based resolution succeeds with no
geocoding call, but it does NOT leave the display name fields empty — it
leaves them exactly as they were (here a previously resolved city name). -/
theorem initializeLocation_displayname_counterexample :
    (initializeLocation coordDisplayState baseEnv).1 = true ∧
    (initializeLocation coordDisplayState baseEnv).2.2 = [] ∧
    (initializeLocation coordDisplayState baseEnv).2.1.cityName = "Москва" ∧
    (initializeLocation coordDisplayState baseEnv).2.1.cityName ≠ "" := by
  refine ⟨rfl, rfl, rfl, ?_⟩
  decide

/-- C8 amended: with both coordinates present, resolution succeeds
immediately and makes no geocoding (or any other) call; the display name
fields are left unchanged — they are empty only when they were empty before
(the best-effort reverse lookup is disabled in the source); the weather URL
is set from the coordinates only when it was still unset. -/
theorem initializeLocation_coordinate_resolution (s : AppState) (env : Env)
    (la lo : JsNum) (hla : s.LATITUDE = some la) (hlo : s.LONGITUDE = some lo) :
    initializeLocation s env =
      (true, { s with WEATHER_URL := some (s.WEATHER_URL.getD (la, lo)) }, []) :=
  initializeLocation_coords s env la lo hla hlo

/-- Witness for C8 at the concrete coordinate state. -/
theorem initializeLocation_coordinate_resolution_witness :
    initializeLocation coordDisplayState baseEnv =
      (true, { coordDisplayState with WEATHER_URL := some (.fin 55, .fin 37) }, []) :=
  initializeLocation_coordinate_resolution coordDisplayState baseEnv
    (.fin 55) (.fin 37) rfl rfl

/-- C10: a candidate carrying both in-range coordinates and non-empty city
and country passes validation, and location initialization then takes the
coordinate path: it succeeds using the coordinates directly, makes no
geocoding call, and the city/country fields play no role in the result. -/
theorem coordinates_with_city_country (cur : Settings) (c k : String)
    (la lo : Rat) (s : AppState) (env : Env)
    (hc : jsTrim c ≠ "") (hk : jsTrim k ≠ "")
    (hla1 : ¬(la < -90 ∨ 90 < la)) (hlo1 : ¬(lo < -180 ∨ 180 < lo))
    (hsla : s.LATITUDE = some (.fin la)) (hslo : s.LONGITUDE = some (.fin lo)) :
    validateSettings cur
      { city := .val c, country := .val k, latitude := .val (.fin la),
        longitude := .val (.fin lo), updateIntervalInSeconds := .undef } = (true, []) ∧
    initializeLocation s env =
      (true, { s with WEATHER_URL := some (s.WEATHER_URL.getD (.fin la, .fin lo)) }, []) := by
  constructor
  · simp [validateSettings, mergeSettings, mergeField, hasCoordinatesB, JOpt.isVal,
          hc, hk, hla1, hlo1]
  · exact initializeLocation_coords s env _ _ hsla hslo

/-- A state carrying both explicit coordinates and a named location. -/
def moscowState : AppState :=
  { baseState with
      CITY := .val "Moscow", COUNTRY := .val "Russia",
      LATITUDE := some (.fin 55), LONGITUDE := some (.fin 37) }

/-- Witness for C10 at a concrete candidate and state. -/
theorem coordinates_with_city_country_witness :
    validateSettings defaultSettings
      { city := .val "Moscow", country := .val "Russia", latitude := .val (.fin 55),
        longitude := .val (.fin 37), updateIntervalInSeconds := .undef } = (true, []) ∧
    initializeLocation moscowState baseEnv =
      (true, { moscowState with WEATHER_URL := some (.fin 55, .fin 37) }, []) :=
  coordinates_with_city_country defaultSettings "Moscow" "Russia" 55 37 moscowState baseEnv
    (by decide) (by decide) (by decide) (by decide) rfl rfl

/-- The Scenario-E candidate: only `updateIntervalInSeconds: 0`. -/
def candIntervalZero : Settings where
  city := .undef
  country := .undef
  latitude := .undef
  longitude := .undef
  updateIntervalInSeconds := .val (.fin 0)

/-- A candidate with two invalid fields: interval 0 and latitude 100. -/
def candIntervalZeroLatBad : Settings where
  city := .undef
  country := .undef
  latitude := .val (.fin 100)
  longitude := .undef
  updateIntervalInSeconds := .val (.fin 0)

/-- C9: validation collects all applicable messages without
short-circuiting: over current settings that satisfy the location
requirement, the candidate `{updateIntervalInSeconds: 0}` fails with exactly
the one interval message and the save-settings handler performs no I/O and
leaves the state unchanged; a candidate with a bad interval AND a bad
latitude collects both messages. -/
theorem validateSettings_collects_all (s : AppState) (env : Env)
    (hloc : (hasCoordinatesB s.settings || hasCityCountryB s.settings) = true) :
    validateSettings s.settings candIntervalZero = (false, [msgIntervalMin]) ∧
    handleSaveSettings candIntervalZero s env = (.settingsError [msgIntervalMin], s, []) ∧
    validateSettings s.settings candIntervalZeroLatBad =
      (false, [msgIntervalMin, msgLatRange]) := by
  have h1 : validateSettings s.settings candIntervalZero = (false, [msgIntervalMin]) := by
    simp [validateSettings, candIntervalZero, (by norm_num : (0 : Rat) < 1)]
    intro hfalse
    have hf : hasCoordinatesB s.settings = false := hfalse
    rcases (by simpa using hloc :
        hasCoordinatesB s.settings = true ∨ hasCityCountryB s.settings = true) with hA | hB
    · rw [hA] at hf
      exact Bool.noConfusion hf
    · exact hB
  refine ⟨h1, ?_, ?_⟩
  · simp [handleSaveSettings, h1]
  · simp [validateSettings, candIntervalZeroLatBad,
          (by norm_num : (0 : Rat) < 1), (by norm_num : (90 : Rat) < 100)]
    intro hfalse
    have hf : s.settings.longitude.isVal = false := hfalse
    rcases (by simpa using hloc :
        hasCoordinatesB s.settings = true ∨ hasCityCountryB s.settings = true) with hA | hB
    · have hA2 : (s.settings.latitude.isVal && s.settings.longitude.isVal) = true := hA
      rcases (by simpa using hA2 :
          s.settings.latitude.isVal = true ∧ s.settings.longitude.isVal = true) with ⟨-, hlon⟩
      rw [hlon] at hf
      exact Bool.noConfusion hf
    · exact hB

/-- Witness for C9 over the default (city/country) settings. -/
theorem validateSettings_collects_all_witness :
    validateSettings baseState.settings candIntervalZero = (false, [msgIntervalMin]) ∧
    handleSaveSettings candIntervalZero baseState baseEnv =
      (.settingsError [msgIntervalMin], baseState, []) ∧
    validateSettings baseState.settings candIntervalZeroLatBad =
      (false, [msgIntervalMin, msgLatRange]) :=
  validateSettings_collects_all baseState baseEnv (by decide)

/-- C4 amended: a forecast fetch failing with an HTTP status adds exactly one
error-log entry carrying that status and leaves the last-success timestamp
untouched, but the displayed temperature does not survive: the tray icon is
redrawn with the `NA` placeholder instead of the prior value. -/
theorem updateTray_failed_fetch (s : AppState) (env : Env)
    (la lo : JsNum) (n : Nat) (stx : String)
    (htr : s.traysCreated = true)
    (hurl : s.WEATHER_URL = some (la, lo))
    (henv : env.forecast = .httpError n stx)
    (hlen : s.apiErrors.length < MAX_ERRORS) :
    (updateTrayTemperature s env).1.apiErrors =
      s.apiErrors ++
        [mkApiError "Weather API" (.httpError n stx) (some (.forecast la lo)) (some n) none] ∧
    (mkApiError "Weather API" (.httpError n stx) (some (.forecast la lo))
        (some n) none).statusCode = some n ∧
    (updateTrayTemperature s env).1.lastUpdateTime = s.lastUpdateTime ∧
    (updateTrayTemperature s env).1.iconText = "NA" := by
  have hfetch : fetchWeatherData s env =
      (none,
       { s with apiErrors := (pushApiError s.apiErrors
          (mkApiError "Weather API" (.httpError n stx) (some (.forecast la lo))
            (some n) none)) },
       [.forecastCall]) := by
    simp [fetchWeatherData, hurl, henv]
  have hpush := pushApiError_of_lt s.apiErrors
    (mkApiError "Weather API" (.httpError n stx) (some (.forecast la lo)) (some n) none) hlen
  have hstat : (mkApiError "Weather API" (.httpError n stx) (some (.forecast la lo))
      (some n) none).statusCode = some n := by
    simp only [mkApiError, jsOrNat, msgStatusCode]
    split <;> rfl
  refine ⟨?_, hstat, ?_, ?_⟩ <;> simp [updateTrayTemperature, htr, hfetch, hpush]

/-- Environment whose forecast call answers HTTP 500. -/
def weatherEnv500 : Env where
  saveOk := true
  geocodeSearch := fun _ _ => .ok none
  forecast := .httpError 500 "Internal Server Error"
  now := 200

/-- State after a successful fetch of temperature 5 at `weatherState`. -/
def sAfterSuccess : AppState := (updateTrayTemperature weatherState weatherEnvOk).1

/-- State after a subsequent fetch failing with HTTP 500. -/
def sAfterFailure : AppState := (updateTrayTemperature sAfterSuccess weatherEnv500).1

/-- C4 counterexample: after showing 5°, a fetch failing with HTTP 500 logs
one entry with status 500 and keeps the timestamp, but the displayed
temperature does NOT remain the prior value — the icon now shows `NA`. -/
theorem updateTray_failed_fetch_counterexample :
    sAfterSuccess.iconText = "5°" ∧
    sAfterFailure.iconText = "NA" ∧
    sAfterFailure.iconText ≠ sAfterSuccess.iconText ∧
    sAfterFailure.lastUpdateTime = sAfterSuccess.lastUpdateTime ∧
    sAfterFailure.apiErrors =
      [mkApiError "Weather API" (.httpError 500 "Internal Server Error")
        (some (.forecast (.fin 55) (.fin 37))) (some 500) none] := by
  decide

/-- Witness for the amended C4 at the concrete post-success state. -/
theorem updateTray_failed_fetch_witness :
    (updateTrayTemperature sAfterSuccess weatherEnv500).1.apiErrors =
      sAfterSuccess.apiErrors ++
        [mkApiError "Weather API" (.httpError 500 "Internal Server Error")
          (some (.forecast (.fin 55) (.fin 37))) (some 500) none] ∧
    (mkApiError "Weather API" (.httpError 500 "Internal Server Error")
        (some (.forecast (.fin 55) (.fin 37))) (some 500) none).statusCode = some 500 ∧
    (updateTrayTemperature sAfterSuccess weatherEnv500).1.lastUpdateTime =
      sAfterSuccess.lastUpdateTime ∧
    (updateTrayTemperature sAfterSuccess weatherEnv500).1.iconText = "NA" :=
  updateTray_failed_fetch sAfterSuccess weatherEnv500 (.fin 55) (.fin 37) 500
    "Internal Server Error" (by decide) (by decide) rfl (by decide)

/-- Helper: `fetchCoordinatesByCity` only ever touches the error log. -/
lemma fetchCoordinatesByCity_state (c k : String) (s : AppState) (env : Env) :
    ∃ errs, (fetchCoordinatesByCity c k s env).2.1 = { s with apiErrors := errs } := by
  unfold fetchCoordinatesByCity
  cases env.geocodeSearch c k with
  | httpError st stx => exact ⟨_, rfl⟩
  | exception m code => exact ⟨_, rfl⟩
  | ok ro =>
      cases ro with
      | none => exact ⟨s.apiErrors, rfl⟩
      | some l =>
          cases l with
          | nil => exact ⟨s.apiErrors, rfl⟩
          | cons r rs => exact ⟨s.apiErrors, rfl⟩

/-- Helper: the only effect of `fetchCoordinatesByCity` is one geocoding
call. -/
lemma fetchCoordinatesByCity_effects (c k : String) (s : AppState) (env : Env) :
    (fetchCoordinatesByCity c k s env).2.2 = [.geocode c k] := by
  unfold fetchCoordinatesByCity
  cases env.geocodeSearch c k with
  | httpError st stx => rfl
  | exception m code => rfl
  | ok ro =>
      cases ro with
      | none => rfl
      | some l =>
          cases l with
          | nil => rfl
          | cons r rs => rfl

/-- Helper: `initializeLocation` never touches the stored settings, the
interval, the timer, the tray flag or the storage. -/
lemma initializeLocation_frame (s : AppState) (env : Env) :
    ((initializeLocation s env).2.1).settings = s.settings ∧
    ((initializeLocation s env).2.1).UPDATE_INTERVAL_SECONDS = s.UPDATE_INTERVAL_SECONDS ∧
    ((initializeLocation s env).2.1).updateTimer = s.updateTimer ∧
    ((initializeLocation s env).2.1).timerSeq = s.timerSeq ∧
    ((initializeLocation s env).2.1).traysCreated = s.traysCreated ∧
    ((initializeLocation s env).2.1).storage = s.storage := by
  unfold initializeLocation
  split
  · obtain ⟨errs, hs1⟩ := fetchCoordinatesByCity_state (jstrVal s.CITY) (jstrVal s.COUNTRY) s env
    rcases hfc : fetchCoordinatesByCity (jstrVal s.CITY) (jstrVal s.COUNTRY) s env
      with ⟨res, s1, fx⟩
    rw [hfc] at hs1
    simp only at hs1
    cases res with
    | some loc => simp [hfc, hs1]
    | none => simp [hfc, hs1]
  · split
    · exact ⟨rfl, rfl, rfl, rfl, rfl, rfl⟩
    · exact ⟨rfl, rfl, rfl, rfl, rfl, rfl⟩

/-- Helper: `initializeLocation` makes no forecast call. -/
lemma initializeLocation_no_forecast (s : AppState) (env : Env) :
    Effect.forecastCall ∉ (initializeLocation s env).2.2 := by
  unfold initializeLocation
  split
  · rcases hfc : fetchCoordinatesByCity (jstrVal s.CITY) (jstrVal s.COUNTRY) s env
      with ⟨res, s1, fx⟩
    have hfx := fetchCoordinatesByCity_effects (jstrVal s.CITY) (jstrVal s.COUNTRY) s env
    rw [hfc] at hfx
    simp only at hfx
    cases res with
    | some loc => simp [hfc, hfx]
    | none => simp [hfc, hfx]
  · split
    · simp
    · simp

/-- Helper: after a successful `initializeLocation` the weather URL is set. -/
lemma initializeLocation_success_url (s : AppState) (env : Env)
    (h : (initializeLocation s env).1 = true) :
    ∃ u, ((initializeLocation s env).2.1).WEATHER_URL = some u := by
  unfold initializeLocation at h ⊢
  by_cases hguard :
      ((s.LATITUDE.isNone || s.LONGITUDE.isNone) && strTruthy s.CITY && strTruthy s.COUNTRY) = true
  · rw [if_pos hguard] at h ⊢
    rcases hfc : fetchCoordinatesByCity (jstrVal s.CITY) (jstrVal s.COUNTRY) s env
      with ⟨res, s1, fx⟩
    rw [hfc] at h
    cases res with
    | some loc => exact ⟨_, rfl⟩
    | none => exact Bool.noConfusion h
  · rw [if_neg hguard] at h ⊢
    rcases hla : s.LATITUDE with _ | la
    · rw [hla] at h
      exact Bool.noConfusion h
    · rw [hla] at h
      rcases hlo : s.LONGITUDE with _ | lo
      · rw [hlo] at h
        exact Bool.noConfusion h
      · rcases hw : s.WEATHER_URL with _ | u <;> exact ⟨_, rfl⟩

/-- The state right after the staging and successful persistence steps of
`applySettings` (the input to the resolution step). -/
def stagedState (cand : Settings) (s : AppState) : AppState :=
  { applyStage cand s with storage := Storage.stored (mergeSettings s.settings cand) }

/-- C1 amended: when the apply reaches the resolution step (persistence
succeeded) and resolution fails, `applySettings` returns failure and restores
the whole in-memory snapshot (city, country, coordinates, interval, weather
URL, display names, settings record) and leaves the running timer untouched;
the persisted storage is rewritten with the snapshot, which equals its
pre-call contents whenever storage held exactly the in-memory settings before
the call (as after any load/save round trip) — but it is the snapshot, not
the literal prior file contents, that is re-persisted. -/
theorem applySettings_rollback_on_resolution_failure
    (cand : Settings) (s : AppState) (env : Env)
    (hsave : env.saveOk = true)
    (hstore : s.storage = Storage.stored s.settings)
    (hfail : (initializeLocation (stagedState cand s) env).1 = false) :
    (applySettings cand s env).1 = false ∧
    ((applySettings cand s env).2.1).settings = s.settings ∧
    ((applySettings cand s env).2.1).CITY = s.CITY ∧
    ((applySettings cand s env).2.1).COUNTRY = s.COUNTRY ∧
    ((applySettings cand s env).2.1).LATITUDE = s.LATITUDE ∧
    ((applySettings cand s env).2.1).LONGITUDE = s.LONGITUDE ∧
    ((applySettings cand s env).2.1).UPDATE_INTERVAL_SECONDS = s.UPDATE_INTERVAL_SECONDS ∧
    ((applySettings cand s env).2.1).WEATHER_URL = s.WEATHER_URL ∧
    ((applySettings cand s env).2.1).cityName = s.cityName ∧
    ((applySettings cand s env).2.1).countryName = s.countryName ∧
    ((applySettings cand s env).2.1).storage = s.storage ∧
    ((applySettings cand s env).2.1).updateTimer = s.updateTimer := by
  have hsv : ∀ (n : Settings) (t : AppState),
      saveSettings n t env = (true, { t with storage := Storage.stored n }, [Effect.save n]) := by
    intro n t
    simp [saveSettings, hsave]
  have hframe := initializeLocation_frame (stagedState cand s) env
  rcases hinit : initializeLocation (stagedState cand s) env with ⟨b, s3, fx2⟩
  rw [hinit] at hframe hfail
  simp only at hframe hfail
  subst hfail
  have happ : applySettings cand s env =
      (false, { rollbackTo s s3 with storage := Storage.stored s.settings },
       [Effect.save (mergeSettings s.settings cand)] ++ fx2 ++ [Effect.save s.settings]) := by
    simp only [applySettings, hsv]
    have : { applyStage cand s with storage := Storage.stored (mergeSettings s.settings cand) }
        = stagedState cand s := rfl
    rw [this, hinit]
  rw [happ]
  refine ⟨rfl, rfl, rfl, rfl, rfl, rfl, rfl, rfl, rfl, rfl, hstore.symm, ?_⟩
  have ht : s3.updateTimer = (stagedState cand s).updateTimer := hframe.2.2.1
  simpa [stagedState, applyStage, rollbackTo] using ht

/-- A candidate naming a place the geocoder cannot find. -/
def candNowhere : Settings :=
  { city := .val "Nowhere", country := .val "Nowhere", latitude := .null,
    longitude := .null, updateIntervalInSeconds := .undef }

/-- The state after launching against a corrupt `settings.json`: the defaults
are live in memory, but the file still holds the corrupt content. -/
def sCorrupt : AppState := { baseState with storage := Storage.corrupt }

/-- C1 counterexample: applying a candidate whose resolution fails, from a
state whose storage was corrupt (reachable: `loadSettings` keeps a corrupt
file), re-persists the in-memory snapshot — so the persisted storage ends as
the default record, NOT its pre-call (corrupt) contents. -/
theorem applySettings_rollback_counterexample :
    (applySettings candNowhere sCorrupt baseEnv).1 = false ∧
    ((applySettings candNowhere sCorrupt baseEnv).2.1).storage =
      Storage.stored defaultSettings ∧
    sCorrupt.storage = Storage.corrupt ∧
    ((applySettings candNowhere sCorrupt baseEnv).2.1).storage ≠ sCorrupt.storage := by
  refine ⟨rfl, rfl, rfl, ?_⟩
  decide

/-- Witness for the amended C1: the same failing apply from a round-tripped
state (storage = in-memory settings) restores every snapshotted component and
the timer, including the storage. -/
theorem applySettings_rollback_witness :
    (applySettings candNowhere baseState baseEnv).1 = false ∧
    ((applySettings candNowhere baseState baseEnv).2.1).settings = baseState.settings ∧
    ((applySettings candNowhere baseState baseEnv).2.1).CITY = baseState.CITY ∧
    ((applySettings candNowhere baseState baseEnv).2.1).COUNTRY = baseState.COUNTRY ∧
    ((applySettings candNowhere baseState baseEnv).2.1).LATITUDE = baseState.LATITUDE ∧
    ((applySettings candNowhere baseState baseEnv).2.1).LONGITUDE = baseState.LONGITUDE ∧
    ((applySettings candNowhere baseState baseEnv).2.1).UPDATE_INTERVAL_SECONDS =
      baseState.UPDATE_INTERVAL_SECONDS ∧
    ((applySettings candNowhere baseState baseEnv).2.1).WEATHER_URL = baseState.WEATHER_URL ∧
    ((applySettings candNowhere baseState baseEnv).2.1).cityName = baseState.cityName ∧
    ((applySettings candNowhere baseState baseEnv).2.1).countryName = baseState.countryName ∧
    ((applySettings candNowhere baseState baseEnv).2.1).storage = baseState.storage ∧
    ((applySettings candNowhere baseState baseEnv).2.1).updateTimer = baseState.updateTimer :=
  applySettings_rollback_on_resolution_failure candNowhere baseState baseEnv rfl rfl (by decide)

/-- Helper: `fetchWeatherData` touches nothing but the error log; in
particular the settings, timer and URL survive. -/
lemma fetchWeatherData_frame (s : AppState) (env : Env) :
    ((fetchWeatherData s env).2.1).settings = s.settings ∧
    ((fetchWeatherData s env).2.1).updateTimer = s.updateTimer ∧
    ((fetchWeatherData s env).2.1).timerSeq = s.timerSeq ∧
    ((fetchWeatherData s env).2.1).UPDATE_INTERVAL_SECONDS = s.UPDATE_INTERVAL_SECONDS ∧
    ((fetchWeatherData s env).2.1).WEATHER_URL = s.WEATHER_URL := by
  unfold fetchWeatherData
  repeat' first
    | exact ⟨rfl, rfl, rfl, rfl, rfl⟩
    | split

/-- Helper: with an initialised weather URL, `fetchWeatherData` performs
exactly one forecast call. -/
lemma fetchWeatherData_effects (s : AppState) (env : Env) (u : JsNum × JsNum)
    (hurl : s.WEATHER_URL = some u) :
    (fetchWeatherData s env).2.2 = [Effect.forecastCall] := by
  obtain ⟨la, lo⟩ := u
  unfold fetchWeatherData
  rw [hurl]
  repeat' first
    | rfl
    | split
    | contradiction

/-- Helper: `updateTrayTemperature` leaves the settings, the timer and the
interval untouched. -/
lemma updateTrayTemperature_frame (s : AppState) (env : Env) :
    ((updateTrayTemperature s env).1).settings = s.settings ∧
    ((updateTrayTemperature s env).1).updateTimer = s.updateTimer ∧
    ((updateTrayTemperature s env).1).timerSeq = s.timerSeq ∧
    ((updateTrayTemperature s env).1).UPDATE_INTERVAL_SECONDS = s.UPDATE_INTERVAL_SECONDS := by
  unfold updateTrayTemperature
  split
  · exact ⟨rfl, rfl, rfl, rfl⟩
  · have hfr := fetchWeatherData_frame s env
    rcases hf : fetchWeatherData s env with ⟨res, s1, fx⟩
    rw [hf] at hfr
    simp only at hfr
    cases res with
    | some wd => exact ⟨hfr.1, hfr.2.1, hfr.2.2.1, hfr.2.2.2.1⟩
    | none => exact ⟨hfr.1, hfr.2.1, hfr.2.2.1, hfr.2.2.2.1⟩

/-- Helper: with the trays created, the effects of `updateTrayTemperature`
are exactly those of the underlying fetch. -/
lemma updateTrayTemperature_effects (s : AppState) (env : Env)
    (htr : s.traysCreated = true) :
    (updateTrayTemperature s env).2 = (fetchWeatherData s env).2.2 := by
  unfold updateTrayTemperature
  rw [htr]
  simp only [Bool.not_true]
  rcases hf : fetchWeatherData s env with ⟨res, s1, fx⟩
  cases res <;> rfl

/-- C5 amended: on a fully successful apply the merged settings become the
live state and one immediate out-of-band weather fetch is triggered, but the
poll timer is rearmed UNCONDITIONALLY: the old timer is cleared and a fresh
one is installed at the merged interval even when the interval did not
change, so the pre-apply timer object never survives an apply. -/
theorem applySettings_success_commits (cand : Settings) (s : AppState) (env : Env)
    (hsave : env.saveOk = true)
    (htr : s.traysCreated = true)
    (hok : (initializeLocation (stagedState cand s) env).1 = true)
    (hwf : ∀ t : Timer, s.updateTimer = some t → t.id < s.timerSeq) :
    (applySettings cand s env).1 = true ∧
    ((applySettings cand s env).2.1).settings = mergeSettings s.settings cand ∧
    ((applySettings cand s env).2.1).updateTimer =
      some ⟨s.timerSeq,
        jsMul ((applySettings cand s env).2.1).UPDATE_INTERVAL_SECONDS (.fin 1000)⟩ ∧
    ((applySettings cand s env).2.1).updateTimer ≠ s.updateTimer ∧
    ((applySettings cand s env).2.2).count Effect.forecastCall = 1 := by
  have hsv : ∀ (n : Settings) (t : AppState),
      saveSettings n t env = (true, { t with storage := Storage.stored n }, [Effect.save n]) := by
    intro n t
    simp [saveSettings, hsave]
  have hframe := initializeLocation_frame (stagedState cand s) env
  have hnofc := initializeLocation_no_forecast (stagedState cand s) env
  have hurl := initializeLocation_success_url (stagedState cand s) env hok
  rcases hinit : initializeLocation (stagedState cand s) env with ⟨b, s3, fx2⟩
  rw [hinit] at hframe hok hnofc hurl
  simp only at hframe hok hnofc hurl
  subst hok
  obtain ⟨u, hu⟩ := hurl
  have htr4 : ({ s3 with
      updateTimer := some ⟨s3.timerSeq, jsMul s3.UPDATE_INTERVAL_SECONDS (JsNum.fin 1000)⟩,
      timerSeq := s3.timerSeq + 1 } : AppState).traysCreated = true := by
    show s3.traysCreated = true
    rw [hframe.2.2.2.2.1]
    exact htr
  have hurl4 : ({ s3 with
      updateTimer := some ⟨s3.timerSeq, jsMul s3.UPDATE_INTERVAL_SECONDS (JsNum.fin 1000)⟩,
      timerSeq := s3.timerSeq + 1 } : AppState).WEATHER_URL = some u := hu
  have hufr := updateTrayTemperature_frame { s3 with
      updateTimer := some ⟨s3.timerSeq, jsMul s3.UPDATE_INTERVAL_SECONDS (JsNum.fin 1000)⟩,
      timerSeq := s3.timerSeq + 1 } env
  have hufx : (updateTrayTemperature { s3 with
      updateTimer := some ⟨s3.timerSeq, jsMul s3.UPDATE_INTERVAL_SECONDS (JsNum.fin 1000)⟩,
      timerSeq := s3.timerSeq + 1 } env).2 = [Effect.forecastCall] := by
    rw [updateTrayTemperature_effects _ env htr4, fetchWeatherData_effects _ env u hurl4]
  rcases hupdate : updateTrayTemperature { s3 with
      updateTimer := some ⟨s3.timerSeq, jsMul s3.UPDATE_INTERVAL_SECONDS (JsNum.fin 1000)⟩,
      timerSeq := s3.timerSeq + 1 } env with ⟨s5, fx4⟩
  rw [hupdate] at hufr hufx
  simp only at hufr hufx
  have happ1 : applySettings cand s env =
      (true,
       (updateTrayTemperature { s3 with
          updateTimer := some ⟨s3.timerSeq, jsMul s3.UPDATE_INTERVAL_SECONDS (JsNum.fin 1000)⟩,
          timerSeq := s3.timerSeq + 1 } env).1,
       [Effect.save (mergeSettings s.settings cand)] ++ fx2 ++
         (updateTrayTemperature { s3 with
            updateTimer := some ⟨s3.timerSeq, jsMul s3.UPDATE_INTERVAL_SECONDS (JsNum.fin 1000)⟩,
            timerSeq := s3.timerSeq + 1 } env).2) := by
    simp only [applySettings, hsv]
    have hstg : ({ applyStage cand s with
        storage := Storage.stored (mergeSettings s.settings cand) } : AppState)
        = stagedState cand s := rfl
    rw [hstg, hinit]
  have happ : applySettings cand s env =
      (true, s5, [Effect.save (mergeSettings s.settings cand)] ++ fx2 ++ fx4) := by
    rw [happ1, hupdate]
  have hts : s3.timerSeq = s.timerSeq := hframe.2.2.2.1
  refine ⟨by rw [happ], ?_, ?_, ?_, ?_⟩
  · rw [happ]
    have h1 : s5.settings = s3.settings := hufr.1
    simp only
    rw [h1]
    exact hframe.1
  · rw [happ]
    simp only
    have h2 : s5.updateTimer =
        some ⟨s3.timerSeq, jsMul s3.UPDATE_INTERVAL_SECONDS (JsNum.fin 1000)⟩ := hufr.2.1
    have h3 : s5.UPDATE_INTERVAL_SECONDS = s3.UPDATE_INTERVAL_SECONDS := hufr.2.2.2
    rw [h2, h3, hts]
  · rw [happ]
    simp only
    have h2 : s5.updateTimer =
        some ⟨s3.timerSeq, jsMul s3.UPDATE_INTERVAL_SECONDS (JsNum.fin 1000)⟩ := hufr.2.1
    rw [h2, hts]
    intro heq
    cases hold : s.updateTimer with
    | none => rw [hold] at heq; exact Option.noConfusion heq
    | some t =>
        rw [hold] at heq
        have ht2 : (⟨s.timerSeq, jsMul s3.UPDATE_INTERVAL_SECONDS (JsNum.fin 1000)⟩ : Timer)
            = t := Option.some_inj.mp heq
        have hid : t.id = s.timerSeq := by rw [← ht2]
        have hlt := hwf t hold
        omega
  · rw [happ]
    simp only
    rw [List.count_append, List.count_append, hufx]
    have hc2 : fx2.count Effect.forecastCall = 0 := by
      rw [List.count_eq_zero]
      exact hnofc
    rw [hc2]
    rfl

/-- A settings record carrying only explicit coordinates. -/
def settingsCoord : Settings where
  city := .null
  country := .null
  latitude := .val (.fin 55)
  longitude := .val (.fin 37)
  updateIntervalInSeconds := .val (.fin 60)

/-- A running state with a live 60-second timer (id 0) polling (55, 37). -/
def sTimer : AppState :=
  { baseState with
      settings := settingsCoord, CITY := .null, COUNTRY := .null,
      LATITUDE := some (.fin 55), LONGITUDE := some (.fin 37),
      WEATHER_URL := some (.fin 55, .fin 37),
      updateTimer := some ⟨0, .fin 60000⟩, timerSeq := 1,
      storage := .stored settingsCoord }

/-- An empty candidate: the apply changes nothing, in particular not the
interval. -/
def emptyCandidate : Settings :=
  { city := .undef, country := .undef, latitude := .undef,
    longitude := .undef, updateIntervalInSeconds := .undef }

/-- C5 counterexample: a fully successful apply whose merged interval equals
the running interval still does NOT leave the existing timer in place — the
timer is cleared and replaced by a fresh one. -/
theorem applySettings_rearm_counterexample :
    (applySettings emptyCandidate sTimer weatherEnvOk).1 = true ∧
    ((applySettings emptyCandidate sTimer weatherEnvOk).2.1).UPDATE_INTERVAL_SECONDS =
      sTimer.UPDATE_INTERVAL_SECONDS ∧
    ((applySettings emptyCandidate sTimer weatherEnvOk).2.1).updateTimer ≠
      sTimer.updateTimer := by
  refine ⟨rfl, rfl, ?_⟩
  decide

/-- Witness for the amended C5 at the concrete unchanged-interval apply. -/
theorem applySettings_success_commits_witness :
    (applySettings emptyCandidate sTimer weatherEnvOk).1 = true ∧
    ((applySettings emptyCandidate sTimer weatherEnvOk).2.1).settings =
      mergeSettings sTimer.settings emptyCandidate ∧
    ((applySettings emptyCandidate sTimer weatherEnvOk).2.1).updateTimer =
      some ⟨sTimer.timerSeq,
        jsMul ((applySettings emptyCandidate sTimer weatherEnvOk).2.1).UPDATE_INTERVAL_SECONDS
          (.fin 1000)⟩ ∧
    ((applySettings emptyCandidate sTimer weatherEnvOk).2.1).updateTimer ≠
      sTimer.updateTimer ∧
    ((applySettings emptyCandidate sTimer weatherEnvOk).2.2).count Effect.forecastCall = 1 :=
  applySettings_success_commits emptyCandidate sTimer weatherEnvOk rfl rfl (by decide)
    (by intro t ht
        have ht2 : (some (⟨0, JsNum.fin 60000⟩ : Timer) : Option Timer) = some t := ht
        rw [← Option.some_inj.mp ht2]
        decide)
